import Mathlib

/-!
Verification development for the academic-backend repository.

The development shallowly embeds the cryptographic issuance/verification core:
the key vault (src/src/services/key-management.service.ts, `encryptPrivateKey`
and `decryptPrivateKey`), the signer (the PSS `signDocument` and both
`verifyDocument` variants of the same file), the verification orchestrator
(`VerificationService.verifyDocument`, src/unnamed/part_007), and the
documents routes (`verify-public` and `revoke`, src/src/routes/documents.ts).

Modelling conventions.
JS byte buffers are `List Nat` (each element a byte, `< 256` where it
matters); JS strings are `List Char`.  Cryptographic primitives are modelled
symbolically, in the usual ideal (Dolev-Yao) style: a SHA-256 digest is a free
constructor applied to the hashed bytes, so the model hash is collision-free;
an RSA key pair is named by a numeric key id, a signature is a term that
records the signing key id and the signed payload, and signature verification
succeeds exactly when the key ids pair up and the payloads agree.  The
AES-256-GCM vault is modelled as a concrete stream cipher (per-byte XOR with a
keystream derived from the derived key and the IV) plus a recomputable
authentication tag, which preserves the structure the code relies on: a fresh
IV per call, a tag that detects ciphertext tampering, and the
`iv:authTag:ciphertext` colon-delimited hex envelope, parsed by splitting on
the colon exactly as the code does.  Database lookups (`prisma.*.findUnique`
and friends) become function arguments or explicit store values; a `prisma`
write that can fail at the infrastructure level is driven by an explicit
`WriteOutcome` argument, `fail` meaning the awaited call threw.
-/

/-! ## Byte and string utilities -/

/-- One hex digit, lower case, as emitted by Node `Buffer.toString ('hex')`:
code 48 is the character 0 and code 87 + 10 is the character a. -/
def hexDigit (n : Nat) : Char :=
  if n < 10 then Char.ofNat (48 + n) else Char.ofNat (87 + n)

/-- Value of one lower-case hex digit (strict: `none` outside the two digit
ranges). -/
def hexVal (c : Char) : Option Nat :=
  if 48 ≤ c.toNat ∧ c.toNat ≤ 57 then some (c.toNat - 48)
  else if 97 ≤ c.toNat ∧ c.toNat ≤ 102 then some (c.toNat - 87)
  else none

/-- Hex encoding of a byte list, two digits per byte (`Buffer.toString ('hex')`). -/
def hexEncode : List Nat → List Char
  | [] => []
  | b :: bs => hexDigit (b / 16) :: hexDigit (b % 16) :: hexEncode bs

/-- Hex decoding back to bytes (`Buffer.from (s, 'hex')` on well-formed input;
Node is lenient on malformed hex, but every malformed-envelope path ends in a
thrown exception either way, which the model folds into `none`). -/
def hexDecode : List Char → Option (List Nat)
  | [] => some []
  | [_] => none
  | c1 :: c2 :: rest => do
      let h ← hexVal c1
      let l ← hexVal c2
      let bs ← hexDecode rest
      pure ((16 * h + l) :: bs)

/-- Split a character list at every occurrence of `sep`, JS `String.split`. -/
def splitChar (sep : Char) : List Char → List (List Char)
  | [] => [[]]
  | c :: rest =>
    let r := splitChar sep rest
    if c = sep then [] :: r
    else
      match r with
      | [] => [[c]]
      | h :: t => (c :: h) :: t

/-- Big-endian-agnostic numeric value of a byte list (used for IV material). -/
def bytesVal (bs : List Nat) : Nat := bs.foldl (fun a b => a * 256 + b) 0

/-- The low `k` bytes of a number, least significant first. -/
def natToBytesAux : Nat → Nat → List Nat
  | 0, _ => []
  | k + 1, n => n % 256 :: natToBytesAux k (n / 256)

theorem hexVal_hexDigit {n : Nat} (h : n < 16) : hexVal (hexDigit n) = some n := by
  interval_cases n <;> rfl

theorem hexDigit_ne_colon {n : Nat} (h : n < 16) : hexDigit n ≠ ':' := by
  interval_cases n <;> decide

theorem hexEncode_ne_colon {bs : List Nat} (hb : ∀ b ∈ bs, b < 256) :
    ∀ c ∈ hexEncode bs, c ≠ ':' := by
  induction bs with
  | nil => intro c hc; simp [hexEncode] at hc
  | cons b bs ih =>
    intro c hc
    have h256 : b < 256 := hb b (List.mem_cons_self _ _)
    simp only [hexEncode, List.mem_cons] at hc
    rcases hc with h | h | h
    · exact h ▸ hexDigit_ne_colon (by omega)
    · exact h ▸ hexDigit_ne_colon (by omega)
    · exact ih (fun x hx => hb x (List.mem_cons_of_mem _ hx)) c h

theorem hexDecode_hexEncode {bs : List Nat} (h : ∀ b ∈ bs, b < 256) :
    hexDecode (hexEncode bs) = some bs := by
  induction bs with
  | nil => decide
  | cons b bs ih =>
    have hbs : ∀ x ∈ bs, x < 256 := fun x hx => h x (List.mem_cons_of_mem _ hx)
    have h1 : b / 16 < 16 := by
      have hb : b < 256 := h b (List.mem_cons_self _ _)
      omega
    have h2 : b % 16 < 16 := by omega
    have hrec : 16 * (b / 16) + b % 16 = b := by omega
    show hexDecode (hexDigit (b / 16) :: hexDigit (b % 16) :: hexEncode bs) = some (b :: bs)
    simp only [hexDecode, hexVal_hexDigit h1, hexVal_hexDigit h2, ih hbs,
      Option.bind_eq_bind, Option.some_bind, hrec]
    rfl

theorem splitChar_of_no_sep {sep : Char} {a : List Char} (h : ∀ c ∈ a, c ≠ sep) :
    splitChar sep a = [a] := by
  induction a with
  | nil => rfl
  | cons c rest ih =>
    have hc : c ≠ sep := h c (List.mem_cons_self _ _)
    have hrest := ih (fun x hx => h x (List.mem_cons_of_mem _ hx))
    simp [splitChar, hc, hrest]

theorem splitChar_append_sep {sep : Char} {a rest : List Char} (h : ∀ c ∈ a, c ≠ sep) :
    splitChar sep (a ++ sep :: rest) = a :: splitChar sep rest := by
  induction a with
  | nil => simp [splitChar]
  | cons c tl ih =>
    have hc : c ≠ sep := h c (List.mem_cons_self _ _)
    have htl := ih (fun x hx => h x (List.mem_cons_of_mem _ hx))
    show splitChar sep (c :: (tl ++ sep :: rest)) = (c :: tl) :: splitChar sep rest
    simp only [splitChar, if_neg hc, htl]

/-! ## Symbolic cryptographic primitives -/

/-- A SHA-256 digest, symbolically: a free constructor applied to the hashed
bytes, so the model hash is injective (ideal, collision-free hash).  The hex
rendering of a digest is identified with the digest itself, hex being
injective. -/
inductive Digest where
  | sha256 (bytes : List Nat)
deriving DecidableEq, Repr

/-- An RSA public key, named by the numeric id of its key pair
(`generateRootKeyPair` returns a fresh pair; the id stands for the pair). -/
structure PublicKey where
  keyId : Nat
deriving DecidableEq, Repr

/-- The PKCS8/PEM encoding of the private key of pair `keyId`, as the byte
sequence the vault encrypts and the signer parses back. -/
def privateKeyPem (keyId : Nat) : List Nat := Nat.digits 256 keyId

/-- Recover the key-pair id from a PEM private-key byte sequence. -/
def pemKeyId (pem : List Nat) : Nat := Nat.ofDigits 256 pem

/-- An RSA-PSS signature (`crypto.sign` with `RSA_PKCS1_PSS_PADDING`): binds
the signing key pair and the signed digest, and carries the random PSS salt
drawn at signing time, so distinct salts yield distinct signature values. -/
structure PssSignature where
  keyId : Nat
  digest : Digest
  salt : Nat
deriving DecidableEq, Repr

/-- PSS signing; `salt` is the randomness drawn for this call. -/
def pssSign (privPem : List Nat) (digest : Digest) (salt : Nat) : PssSignature :=
  { keyId := pemKeyId privPem, digest := digest, salt := salt }

/-- PSS verification: the key ids pair up and the digests agree; the salt is
recovered from the signature and does not influence acceptance. -/
def pssVerify (pub : PublicKey) (digest : Digest) (sig : PssSignature) : Bool :=
  sig.keyId == pub.keyId && sig.digest == digest

/-- An `RSA-SHA256` (`createSign`, PKCS#1 v1.5, deterministic) signature over
the hex digest string: binds the signing key pair and the signed digest. -/
structure RsaSha256Signature where
  keyId : Nat
  signedHash : Digest
deriving DecidableEq, Repr

/-- Deterministic PKCS#1 v1.5 signing of a digest string. -/
def rsaSha256Sign (privPem : List Nat) (h : Digest) : RsaSha256Signature :=
  { keyId := pemKeyId privPem, signedHash := h }

/-- PKCS#1 v1.5 verification of a digest string. -/
def rsaSha256Verify (pub : PublicKey) (h : Digest) (sig : RsaSha256Signature) : Bool :=
  sig.keyId == pub.keyId && sig.signedHash == h

/-! ## KeyManagementService: vault
(src/src/services/key-management.service.ts, `encryptPrivateKey` /
`decryptPrivateKey`; both revisions of the class agree on this logic) -/

/-- The literal non-secret `'salt'` passed to `crypto.scryptSync`. -/
def scryptSaltLiteral : List Char := ['s', 'a', 'l', 't']

/-- `crypto.scryptSync (masterKey, salt, 32)`: the derived 256-bit symmetric
key, modelled as a concrete deterministic function of its inputs (the only
property the code relies on is determinism). -/
def scryptSync (password salt : List Char) (keyLen : Nat) : Nat :=
  password.foldl (fun a c => a * 1114112 + c.toNat + 1) 7 * 2000003 +
    salt.foldl (fun a c => a * 1114112 + c.toNat + 1) 11 * 1009 + keyLen

/-- The AES-256-GCM keystream byte at counter position `i`, a deterministic
function of derived key and IV value; always a byte. -/
def keyStream (key ivVal i : Nat) : Nat := (key + 31 * ivVal + 7 * i) % 256

/-- CTR-style streaming: XOR each byte with the keystream from position `i`.
Applied twice with the same key and IV it is the identity, which is the
cipher/decipher pair of AES-GCM's counter mode. -/
def xorStream (key ivVal : Nat) : Nat → List Nat → List Nat
  | _, [] => []
  | i, b :: bs => (b ^^^ keyStream key ivVal i) :: xorStream key ivVal (i + 1) bs

/-- The 16-byte GCM authentication tag over the ciphertext, recomputable from
derived key, IV value and ciphertext, so any tampering with the ciphertext or
the tag field is detected. -/
def gcmTagBytes (key ivVal : Nat) (ct : List Nat) : List Nat :=
  natToBytesAux 16 (key + 101 * ivVal + 131 * bytesVal ct + ct.length)

/-- `KeyManagementService.encryptPrivateKey`: derive the symmetric key from
the master key via scrypt with the fixed `'salt'`, encrypt with AES-256-GCM
under the fresh random 16-byte `iv` drawn by this call, and serialize as the
colon-delimited hex envelope `iv:authTag:ciphertext`. -/
def KeyManagementService.encryptPrivateKey (masterKey : List Char) (iv : List Nat)
    (privateKey : List Nat) : List Char :=
  let key := scryptSync masterKey scryptSaltLiteral 32
  let encrypted := xorStream key (bytesVal iv) 0 privateKey
  let authTag := gcmTagBytes key (bytesVal iv) encrypted
  hexEncode iv ++ ':' :: (hexEncode authTag ++ ':' :: hexEncode encrypted)

/-- `KeyManagementService.decryptPrivateKey`: split the envelope on `:` (the
JS destructuring takes the first three fields and ignores any extra), decode
the hex fields, re-derive the symmetric key, decrypt, and verify the
authentication tag; `decipher.final ()` throws on tag mismatch, and every
malformed-envelope or failed-authentication path is a thrown exception, which
this total model folds into `none` — no partial plaintext is ever returned. -/
def KeyManagementService.decryptPrivateKey (masterKey : List Char)
    (encryptedKey : List Char) : Option (List Nat) :=
  match splitChar ':' encryptedKey with
  | ivHex :: authTagHex :: encryptedHex :: _ =>
    match hexDecode ivHex, hexDecode authTagHex, hexDecode encryptedHex with
    | some iv, some authTag, some encrypted =>
      let key := scryptSync masterKey scryptSaltLiteral 32
      let decrypted := xorStream key (bytesVal iv) 0 encrypted
      if authTag = gcmTagBytes key (bytesVal iv) encrypted then some decrypted else none
    | _, _, _ => none
  | _ => none

theorem keyStream_lt (key ivVal i : Nat) : keyStream key ivVal i < 256 :=
  Nat.mod_lt _ (by omega)

theorem xorStream_xorStream (key ivVal : Nat) (bs : List Nat) :
    ∀ i, xorStream key ivVal i (xorStream key ivVal i bs) = bs := by
  induction bs with
  | nil => intro i; rfl
  | cons b tl ih =>
    intro i
    simp only [xorStream, ih (i + 1), List.cons.injEq, and_true]
    rw [Nat.xor_assoc, Nat.xor_self, Nat.xor_zero]

theorem xorStream_lt {bs : List Nat} (h : ∀ b ∈ bs, b < 256) (key ivVal : Nat) :
    ∀ i, ∀ b ∈ xorStream key ivVal i bs, b < 256 := by
  induction bs with
  | nil => intro i b hb; simp [xorStream] at hb
  | cons x tl ih =>
    intro i b hb
    simp only [xorStream, List.mem_cons] at hb
    rcases hb with hb | hb
    · subst hb
      have hx : x < 256 := h x (List.mem_cons_self _ _)
      have hk := keyStream_lt key ivVal i
      exact Nat.xor_lt_two_pow (n := 8) hx hk
    · exact ih (fun y hy => h y (List.mem_cons_of_mem _ hy)) (i + 1) b hb

theorem natToBytesAux_lt (k n : Nat) : ∀ b ∈ natToBytesAux k n, b < 256 := by
  induction k generalizing n with
  | zero => intro b hb; simp [natToBytesAux] at hb
  | succ k ih =>
    intro b hb
    simp only [natToBytesAux, List.mem_cons] at hb
    rcases hb with hb | hb
    · subst hb; exact Nat.mod_lt _ (by omega)
    · exact ih (n / 256) b hb

/-! ## KeyManagementService: hashing, signing, verifying
(src/src/services/key-management.service.ts; the file carries two revisions
of the class — the `RSA-SHA256`/hash-compare one used by
src/src/routes/documents.ts, and the RSA-PSS one used by
src/unnamed/part_007) -/

/-- `KeyManagementService.hashDocument`: SHA-256 over the exact file bytes,
hex-encoded (the hex string is identified with the digest). -/
def hashDocument (fileBuffer : List Nat) : Digest := .sha256 fileBuffer

/-- First-revision `KeyManagementService.signDocument (hash, encryptedPrivateKey,
encryptionKey)` (lines 48-56): decrypt the private key with the process master
key, then `createSign ('RSA-SHA256')` over the hash string.  The
`encryptionKey` parameter is accepted and unused, as in the source.  A failed
decryption throws in JS; the model returns `none` there. -/
def KeyManagementService.signDocumentV1 (masterKey : List Char) (hash : Digest)
    (encryptedPrivateKey : List Char) (_encryptionKey : List Char) :
    Option RsaSha256Signature :=
  (KeyManagementService.decryptPrivateKey masterKey encryptedPrivateKey).map
    fun privateKey => rsaSha256Sign privateKey hash

/-- First-revision 4-argument `KeyManagementService.verifyDocument (fileBuffer,
signatureBase64, publicKey, expectedHash)` (lines 58-69): recompute the SHA-256
of the supplied bytes, compare to the expected hash and return `false`
immediately on mismatch, and only otherwise run the `RSA-SHA256` signature
verification over the expected hash string. -/
def KeyManagementService.verifyDocumentV1 (fileBuffer : List Nat)
    (signatureBase64 : RsaSha256Signature) (publicKey : PublicKey)
    (expectedHash : Digest) : Bool :=
  let actualHash := hashDocument fileBuffer
  if actualHash ≠ expectedHash then false
  else rsaSha256Verify publicKey expectedHash signatureBase64

/-- Second-revision `KeyManagementService.signDocument (fileBuffer,
encryptedPrivateKey, keyVersion)` (lines 116-131): decrypt the private key,
SHA-256 the file bytes, and sign the digest with RSA-PSS (salt length = digest
length); `salt` is the randomness drawn by this PSS invocation.  Returns the
base64 signature together with the hex digest.  The `keyVersion` parameter is
accepted and unused by the function body, as in the source. -/
def KeyManagementService.signDocumentPss (masterKey : List Char)
    (fileBuffer : List Nat) (encryptedPrivateKey : List Char) (_keyVersion : Nat)
    (salt : Nat) : Option (PssSignature × Digest) :=
  (KeyManagementService.decryptPrivateKey masterKey encryptedPrivateKey).map
    fun privateKey => (pssSign privateKey (hashDocument fileBuffer) salt, hashDocument fileBuffer)

/-- Second-revision 3-argument `KeyManagementService.verifyDocument (fileBuffer,
signatureBase64, publicKey)` (lines 133-151): SHA-256 the supplied bytes and
verify the RSA-PSS signature against that digest; any thrown error is caught
and reported as `false`. -/
def KeyManagementService.verifyDocumentPss (fileBuffer : List Nat)
    (signatureBase64 : PssSignature) (publicKey : PublicKey) : Bool :=
  pssVerify publicKey (hashDocument fileBuffer) signatureBase64

/-! ## Data model (prisma records, as the embedded routes consume them) -/

/-- `DocumentStatus`. -/
inductive DocStatus where
  | ACTIVE | REVOKED | SUPERSEDED
deriving DecidableEq, Repr

/-- `InstitutionStatus`. -/
inductive InstStatus where
  | ACTIVE | SUSPENDED
deriving DecidableEq, Repr

/-- `UserRole`. -/
inductive UserRole where
  | STUDENT | ISSUER | ADMIN
deriving DecidableEq, Repr

/-- One entry of an institution's `keyRotationHistory` JSON array. -/
structure KeyHistoryEntry where
  version : Nat
  publicKey : PublicKey
  encryptedPrivateKey : List Char
  createdAt : Nat
  revokedAt : Option Nat
deriving DecidableEq, Repr

/-- An `Institution` row, restricted to the fields the embedded code reads. -/
structure Institution where
  id : Nat
  name : List Char
  status : InstStatus
  rootPublicKey : PublicKey
  rootPrivateKey : List Char
  keyVersion : Nat
  keyRotationHistory : List KeyHistoryEntry
deriving DecidableEq, Repr

/-- A `User` row, restricted to the fields the verifier reads; timestamps are
epoch milliseconds, `none` is SQL NULL. -/
structure UserRec where
  id : Nat
  email : List Char
  institutionId : Nat
  role : UserRole
  whitelistedAt : Option Nat
  revokedAt : Option Nat
deriving DecidableEq, Repr

/-- A `Revocation` row (the revocation ledger; `documentId` is unique). -/
structure Revocation where
  id : Nat
  documentId : Nat
  institutionId : Nat
  reason : List Char
  revokedBy : List Char
  revokedAt : Nat
deriving DecidableEq, Repr

/-! ## VerificationService.verifyDocument (src/unnamed/part_007)
The orchestrating verifier: resolve the public key for the document's recorded
key version through the rotation history, check the signature, check the
recorded issuer's authorization window, check the revocation ledger and the
document status, and report a structured verdict.  The prisma lookups become
function arguments: `document?` is the result of `document.findUnique`
(institution included), `findUserByEmail` is `user.findUnique` by email, and
`findRevocation` is `revocation.findUnique` by document id. -/

/-- The errors the verifier pushes, one constructor per pushed message string
(payloads carry the interpolated parts):
`documentNotFound` = "Document not found";
`keyVersionNotFound v` = "Key version (v) not found in institution history";
`signatureInvalid` = "Cryptographic signature invalid - document may be tampered";
`issuerMissing` = "Issuer no longer exists in system";
`issuerWrongInstitution` = "Issuer does not belong to issuing institution";
`issuerNotYetAuthorized` = "Issuer was not authorized at time of issuance";
`issuerRevokedBeforeIssuance` = "Issuer authorization was revoked before issuance";
`documentRevoked r` = "Document revoked: (reason or fallback)";
`documentMarkedRevoked` = "Document marked as revoked";
`documentSuperseded` = "Document has been superseded by a newer version". -/
inductive VerifyError where
  | documentNotFound
  | keyVersionNotFound (version : Nat)
  | signatureInvalid
  | issuerMissing
  | issuerWrongInstitution
  | issuerNotYetAuthorized
  | issuerRevokedBeforeIssuance
  | documentRevoked (reason : List Char)
  | documentMarkedRevoked
  | documentSuperseded
deriving DecidableEq, Repr

/-- The metadata fields this verifier reads off the document's JSON blob. -/
structure MetadataV2 where
  signature : PssSignature
  keyVersion : Option Nat
  issuerEmail : Option (List Char)
deriving DecidableEq, Repr

/-- The document row as this verifier consumes it (institution included). -/
structure DocumentV2 where
  id : Nat
  type : List Char
  institutionId : Nat
  userId : Nat
  status : DocStatus
  issuedAt : Nat
  metadata : MetadataV2
  institution : Institution
deriving DecidableEq, Repr

/-- The `checks` block of the structured verdict. -/
structure VerifyChecks where
  cryptographic : Bool
  authority : Bool
  revocation : Bool
deriving DecidableEq, Repr

/-- The `details` block of the structured verdict. -/
structure VerifyDetails where
  documentType : Option (List Char)
  institutionName : Option (List Char)
  issuedAt : Option Nat
  issuerEmail : Option (List Char)
  keyVersion : Option Nat
  revocationReason : Option (List Char)
deriving DecidableEq, Repr

/-- The structured `VerificationResult`. -/
structure VerificationResult where
  valid : Bool
  checks : VerifyChecks
  details : VerifyDetails
  errors : List VerifyError
deriving DecidableEq, Repr

/-- JS `metadata.keyVersion || 1`: a missing field and the falsy `0` both
default to `1`. -/
def jsOrOne : Option Nat → Nat
  | none => 1
  | some 0 => 1
  | some v => v

/-- JS `s || fallback` on strings: the empty string is falsy. -/
def jsOrStr (s fallback : List Char) : List Char :=
  if s.isEmpty then fallback else s

/-- The fallback reason string "No reason provided". -/
def noReasonStr : List Char :=
  ['N', 'o', ' ', 'r', 'e', 'a', 's', 'o', 'n', ' ', 'p', 'r', 'o', 'v', 'i', 'd', 'e', 'd']

/-- Lines 48-58 of part_007: start from the institution's current
`rootPublicKey`; when the document's key version differs from the current one,
look the version up in `keyRotationHistory` and use that entry's public key if
found — if absent, push the key-version-not-found error and keep the current
public key (the fallback the source actually performs). -/
def resolveInstKey (inst : Institution) (keyVersion : Nat) :
    PublicKey × Option VerifyError :=
  if keyVersion ≠ inst.keyVersion then
    match inst.keyRotationHistory.find? (fun k => k.version == keyVersion) with
    | some historicalKey => (historicalKey.publicKey, none)
    | none => (inst.rootPublicKey, some (.keyVersionNotFound keyVersion))
  else (inst.rootPublicKey, none)

/-- `VerificationService.verifyDocument (documentId, fileBuffer)`
(src/unnamed/part_007, lines 23-131), as a pure function of the lookups it
performs.  Error order follows the pushes: key resolution, signature,
authority, revocation. -/
def VerificationService.verifyDocument (document? : Option DocumentV2)
    (findUserByEmail : List Char → Option UserRec)
    (findRevocation : Nat → Option Revocation)
    (fileBuffer : List Nat) : VerificationResult :=
  match document? with
  | none =>
    { valid := false
      checks := ⟨false, false, false⟩
      details := ⟨none, none, none, none, none, none⟩
      errors := [.documentNotFound] }
  | some document =>
    let metadata := document.metadata
    let keyVersion := jsOrOne metadata.keyVersion
    let resolved := resolveInstKey document.institution keyVersion
    let publicKey := resolved.1
    let keyErrs := resolved.2.toList
    let cryptoValid :=
      KeyManagementService.verifyDocumentPss fileBuffer metadata.signature publicKey
    let cryptoErrs : List VerifyError := if cryptoValid then [] else [.signatureInvalid]
    let authority :=
      match metadata.issuerEmail with
      | none => (true, ([] : List VerifyError))
      | some issuerEmail =>
        match findUserByEmail issuerEmail with
        | none => (false, [VerifyError.issuerMissing])
        | some issuer =>
          if issuer.institutionId ≠ document.institutionId then
            (false, [VerifyError.issuerWrongInstitution])
          else if issuer.whitelistedAt.getD 0 > document.issuedAt then
            (false, [VerifyError.issuerNotYetAuthorized])
          else if (match issuer.revokedAt with
                   | some r => decide (r < document.issuedAt)
                   | none => false) then
            (false, [VerifyError.issuerRevokedBeforeIssuance])
          else (true, [])
    let revocation := findRevocation document.id
    let revoc :=
      match revocation with
      | some r => (false, [VerifyError.documentRevoked (jsOrStr r.reason noReasonStr)])
      | none =>
        if document.status = DocStatus.REVOKED then
          (false, [VerifyError.documentMarkedRevoked])
        else if document.status = DocStatus.SUPERSEDED then
          (false, [VerifyError.documentSuperseded])
        else (true, ([] : List VerifyError))
    let valid := cryptoValid && authority.1 && revoc.1
    { valid := valid
      checks := ⟨cryptoValid, authority.1, revoc.1⟩
      details :=
        { documentType := some document.type
          institutionName := some document.institution.name
          issuedAt := some document.issuedAt
          issuerEmail := metadata.issuerEmail
          keyVersion := some keyVersion
          revocationReason :=
            match revocation with
            | some r => if r.reason.isEmpty then none else some r.reason
            | none => none }
      errors := keyErrs ++ cryptoErrs ++ authority.2 ++ revoc.2 }

/-! ## Key rotation -/

/-- Modelled from the spec: no key-rotation operation ships under src/ — only
the seed/migration scripts (src/unnamed/part_000, part_002) write
`keyRotationHistory`, seeding it with the version-1 entry — so `rotateKey` is
modelled from spec section 4.3: generate a fresh key pair, encrypt the new
private key, append a new history entry (`revokedAt = null`; historical
entries are never mutated), set the new pair as current and increment the
version counter.  `freshKeyId` names the freshly generated pair and `iv` the
fresh random IV drawn for the vault encryption. -/
def rotateKey (masterKey : List Char) (inst : Institution) (freshKeyId : Nat)
    (iv : List Nat) (now : Nat) : Institution :=
  let newVersion := inst.keyVersion + 1
  let newPublicKey : PublicKey := ⟨freshKeyId⟩
  let encryptedNew :=
    KeyManagementService.encryptPrivateKey masterKey iv (privateKeyPem freshKeyId)
  { inst with
    rootPublicKey := newPublicKey
    rootPrivateKey := encryptedNew
    keyVersion := newVersion
    keyRotationHistory := inst.keyRotationHistory ++
      [{ version := newVersion
         publicKey := newPublicKey
         encryptedPrivateKey := encryptedNew
         createdAt := now
         revokedAt := none }] }

/-- N successive rotations, each with its own fresh pair id, IV and time. -/
def rotateMany (masterKey : List Char) (inst : Institution) :
    List (Nat × List Nat × Nat) → Institution
  | [] => inst
  | p :: rest => rotateMany masterKey (rotateKey masterKey inst p.1 p.2.1 p.2.2) rest

/-! ## Public verification endpoint
(src/src/routes/documents.ts, GET /:id/verify-public, lines 276-428) -/

/-- The literal "undefined" a JS template renders for a missing value. -/
def strUndefined : List Char := ['u', 'n', 'd', 'e', 'f', 'i', 'n', 'e', 'd']

/-- The fallback actor string "Unknown". -/
def unknownStr : List Char := ['U', 'n', 'k', 'n', 'o', 'w', 'n']

/-- Rendering of the JS template fragment for `s[i]`: the character when the
index is in range, the string "undefined" otherwise. -/
def jsIndexChar (s : List Char) (i : Nat) : List Char :=
  match s.get? i with
  | some c => [c]
  | none => strUndefined

/-- The `redactEmail` helper (documents.ts lines 12-18): split on `@`, keep
the first and (when the name part is longer than 2) last character of the name
and mask the middle with `***`. -/
def redactEmail (email : List Char) : List Char :=
  let parts := splitChar '@' email
  let name := parts.headD []
  let domainStr :=
    match parts.get? 1 with
    | some d => d
    | none => strUndefined
  if name.length ≤ 2 then
    jsIndexChar name 0 ++ '*' :: '*' :: '*' :: '@' :: domainStr
  else
    jsIndexChar name 0 ++ '*' :: '*' :: '*' ::
      (jsIndexChar name (name.length - 1) ++ '@' :: domainStr)

/-- The recipient-facing `user` selection of the endpoint's document query. -/
structure UserSel where
  id : Nat
  email : List Char
deriving DecidableEq, Repr

/-- The metadata fields the documents routes read off the JSON blob. -/
structure MetadataV1 where
  hash : Digest
  signature : RsaSha256Signature
  filePath : Nat
deriving DecidableEq, Repr

/-- The document row as the public endpoint consumes it (institution and the
recipient user included). -/
structure DocumentV1 where
  id : Nat
  type : List Char
  institutionId : Nat
  userId : Nat
  status : DocStatus
  issuedAt : Nat
  metadata : MetadataV1
  institution : Institution
  user : UserSel
deriving DecidableEq, Repr

/-- The `checks` block of the route responses. -/
structure PublicChecks where
  signatureValid : Bool
  authorityValid : Bool
  notRevoked : Bool
deriving DecidableEq, Repr

/-- The nested `document` object of a route response (recipient email after
redaction). -/
structure PublicDocView where
  type : List Char
  issuedAt : Nat
  recipientEmail : List Char
deriving DecidableEq, Repr

/-- The nested `institution` object of a route response; only the final branch
includes the institution status. -/
structure PublicInstView where
  name : List Char
  status : Option InstStatus
deriving DecidableEq, Repr

/-- The JSON body of a non-404 verdict; `none` fields are absent keys. -/
structure PublicVerdict where
  valid : Bool
  status : DocStatus
  revokedAt : Option Nat
  revokedBy : Option (List Char)
  reason : Option (List Char)
  checks : PublicChecks
  document : PublicDocView
  institution : PublicInstView
deriving DecidableEq, Repr

/-- The endpoint outcome: 404, a verdict body, or the catch-all 500. -/
inductive PublicVerifyResponse where
  | notFound
  | ok (v : PublicVerdict)
  | serverError
deriving DecidableEq, Repr

/-- GET /:id/verify-public as a pure function of its lookups: `document?` is
the `document.findUnique` result (institution and user selections included),
`findRevocation` is `revocation.findFirst` by document id, and `readFile`
models `fs.readFile` on the stored path (`none` when the read throws, which
the route catches into `signatureValid = false`).  The audit-log write has no
effect on the response and is not modelled. -/
def verifyPublicRoute (document? : Option DocumentV1)
    (findRevocation : Nat → Option Revocation)
    (readFile : Nat → Option (List Nat)) : PublicVerifyResponse :=
  match document? with
  | none => .notFound
  | some document =>
    let metadata := document.metadata
    let revocation := findRevocation document.id
    if document.status = DocStatus.REVOKED ∨ revocation.isSome then
      .ok { valid := false
            status := .REVOKED
            revokedAt := revocation.map Revocation.revokedAt
            revokedBy := some (match revocation with
              | some r => jsOrStr r.revokedBy unknownStr
              | none => unknownStr)
            reason := some (match revocation with
              | some r => jsOrStr r.reason noReasonStr
              | none => noReasonStr)
            checks := ⟨false, false, false⟩
            document := ⟨document.type, document.issuedAt, redactEmail document.user.email⟩
            institution := ⟨document.institution.name, none⟩ }
    else if document.status = DocStatus.SUPERSEDED then
      .ok { valid := false
            status := .SUPERSEDED
            revokedAt := none
            revokedBy := none
            reason := none
            checks := ⟨false, false, false⟩
            document := ⟨document.type, document.issuedAt, redactEmail document.user.email⟩
            institution := ⟨document.institution.name, none⟩ }
    else
      let notRevoked := true
      let signatureValid :=
        match readFile metadata.filePath with
        | none => false
        | some fileBuffer =>
          KeyManagementService.verifyDocumentV1 fileBuffer metadata.signature
            document.institution.rootPublicKey metadata.hash
      let authorityValid := document.institution.status == InstStatus.ACTIVE
      .ok { valid := signatureValid && authorityValid && notRevoked
            status := document.status
            revokedAt := none
            revokedBy := none
            reason := none
            checks := ⟨signatureValid, authorityValid, notRevoked⟩
            document := ⟨document.type, document.issuedAt, redactEmail document.user.email⟩
            institution := ⟨document.institution.name, some document.institution.status⟩ }

/-! ## Revoke endpoint (src/src/routes/documents.ts, POST /:id/revoke,
lines 513-581).  The route performs two separate awaited prisma writes —
`document.update` to status REVOKED, then `revocation.create` — with no
surrounding transaction; each write is driven by a `WriteOutcome` (`fail`
meaning the awaited call threw, in which case the route aborts with the
framework 500 and earlier writes stay committed).  The audit-log write has its
failure swallowed and no effect on the response or the modelled state. -/

/-- The authenticated session user of the request. -/
structure SessionUser where
  userId : Nat
  email : List Char
  role : UserRole
  institutionId : Nat
deriving DecidableEq, Repr

/-- The document row as the revoke route reads it. -/
structure DocRow where
  id : Nat
  institutionId : Nat
  status : DocStatus
deriving DecidableEq, Repr

/-- The durable store the route mutates: document rows and the revocation
ledger. -/
structure Store where
  documents : List DocRow
  revocations : List Revocation
deriving DecidableEq, Repr

/-- Whether an awaited prisma write commits or throws. -/
inductive WriteOutcome where
  | ok | fail
deriving DecidableEq, Repr

/-- The route replies: the 400s, 404, 403, the framework 500 on a thrown
write, and the success body. -/
inductive RevokeReply where
  | badRequestReasonRequired
  | notFound
  | forbidden
  | badRequestAlreadyRevoked
  | serverError
  | success (reason : List Char) (revokedBy : List Char)
deriving DecidableEq, Repr

/-- Whether a reply is the success body. -/
def RevokeReply.isSuccess : RevokeReply → Bool
  | .success _ _ => true
  | _ => false

/-- `prisma.document.findUnique ({ where: { id } })`. -/
def Store.findDocument (st : Store) (docId : Nat) : Option DocRow :=
  st.documents.find? (fun d => d.id == docId)

/-- `prisma.document.update ({ where: { id }, data: { status } })`. -/
def Store.updateStatus (st : Store) (docId : Nat) (s : DocStatus) : Store :=
  let rows := st.documents.map (fun d => if d.id == docId then { d with status := s } else d)
  { st with documents := rows }

/-- The `${user.email} (${user.role})` actor string. -/
def revokedByStr (u : SessionUser) : List Char :=
  u.email ++ ' ' :: '(' ::
    ((match u.role with
      | .STUDENT => ['S', 'T', 'U', 'D', 'E', 'N', 'T']
      | .ISSUER => ['I', 'S', 'S', 'U', 'E', 'R']
      | .ADMIN => ['A', 'D', 'M', 'I', 'N']) ++ [')'])

/-- POST /:id/revoke: require a truthy reason, look the document up, enforce
the issuer-institution check, reject an already-REVOKED document, then flip
the status and append the ledger record as two separate writes. -/
def revokeRoute (st : Store) (docId : Nat) (reason : List Char)
    (user : SessionUser) (revId : Nat) (now : Nat)
    (updateW createW : WriteOutcome) : RevokeReply × Store :=
  if reason.isEmpty then (.badRequestReasonRequired, st)
  else
    match st.findDocument docId with
    | none => (.notFound, st)
    | some document =>
      if user.role = UserRole.ISSUER ∧ document.institutionId ≠ user.institutionId then
        (.forbidden, st)
      else if document.status = DocStatus.REVOKED then
        (.badRequestAlreadyRevoked, st)
      else
        match updateW with
        | .fail => (.serverError, st)
        | .ok =>
          let st1 := st.updateStatus docId .REVOKED
          match createW with
          | .fail => (.serverError, st1)
          | .ok =>
            let record : Revocation :=
              { id := revId
                documentId := document.id
                institutionId := document.institutionId
                reason := reason
                revokedBy := revokedByStr user
                revokedAt := now }
            (.success reason (revokedByStr user),
             { st1 with revocations := st1.revocations ++ [record] })

/-! ## Supporting lemmas -/

theorem find?_append_of_some {α : Type} {p : α → Bool} {l l' : List α} {x : α}
    (h : l.find? p = some x) : (l ++ l').find? p = some x := by
  induction l with
  | nil => simp [List.find?] at h
  | cons a tl ih =>
    rw [List.cons_append]
    by_cases hp : p a = true
    · rw [List.find?_cons_of_pos _ hp] at h ⊢
      exact h
    · rw [List.find?_cons_of_neg _ hp] at h ⊢
      exact ih h

/-- The resolution invariant that key rotation preserves: version `V` is at
most the current version, the history lookup for `V` yields an entry carrying
public key `p`, and when `V` is the current version the current root public
key is `p` (the data-model invariant that the current version is always
present, as an entry, in the rotation history). -/
def resolvesTo (inst : Institution) (V : Nat) (p : PublicKey) : Prop :=
  V ≤ inst.keyVersion ∧
  (∃ e, inst.keyRotationHistory.find? (fun k => k.version == V) = some e ∧
    e.publicKey = p) ∧
  (V = inst.keyVersion → inst.rootPublicKey = p)

theorem resolvesTo_rotateKey {inst : Institution} {V : Nat} {p : PublicKey}
    (master : List Char) (freshKeyId : Nat) (iv : List Nat) (now : Nat)
    (h : resolvesTo inst V p) :
    resolvesTo (rotateKey master inst freshKeyId iv now) V p := by
  obtain ⟨h1, ⟨e, he, hep⟩, _⟩ := h
  refine ⟨?_, ⟨e, ?_, hep⟩, ?_⟩
  · simp only [rotateKey]
    omega
  · simp only [rotateKey]
    exact find?_append_of_some he
  · intro hV
    exfalso
    simp only [rotateKey] at hV
    omega

theorem resolvesTo_rotateMany {inst : Institution} {V : Nat} {p : PublicKey}
    (master : List Char) (l : List (Nat × List Nat × Nat))
    (h : resolvesTo inst V p) : resolvesTo (rotateMany master inst l) V p := by
  induction l generalizing inst with
  | nil => exact h
  | cons q rest ih =>
    exact ih (resolvesTo_rotateKey master q.1 q.2.1 q.2.2 h)

theorem resolveInstKey_eq {inst : Institution} {V : Nat} {p : PublicKey}
    (h : resolvesTo inst V p) : resolveInstKey inst V = (p, none) := by
  obtain ⟨_, ⟨e, he, hep⟩, h3⟩ := h
  unfold resolveInstKey
  by_cases hv : V = inst.keyVersion
  · rw [if_neg (by omega)]
    rw [h3 hv]
  · rw [if_pos hv, he]
    show (e.publicKey, none) = (p, none)
    rw [hep]

theorem jsOrOne_some {V : Nat} (h : V ≠ 0) : jsOrOne (some V) = V := by
  cases V with
  | zero => exact absurd rfl h
  | succ n => rfl

/-! ## Claim theorems -/

/-- Claim C1: for every document signed under institution key version `V` with
the institution's key rotation history intact (`resolvesTo`), the
cryptographic signature check of verification still reports valid after any
number of subsequent key rotations: the verifier resolves the public key for
`metadata.keyVersion` — the current public key when `V` equals the current key
version, otherwise the matching history entry's public key — so rotation never
invalidates previously issued signatures.  The rotation operation itself is
missing from src/ and is modelled from the spec (`rotateKey`). -/
theorem rotation_preserves_prior_signatures
    (master : List Char) (doc : DocumentV2) (V : Nat) (p : PublicKey)
    (rotations : List (Nat × List Nat × Nat))
    (findUserByEmail : List Char → Option UserRec)
    (findRevocation : Nat → Option Revocation)
    (fileBuffer : List Nat) (salt : Nat)
    (hkv : doc.metadata.keyVersion = some V) (hV : V ≠ 0)
    (hres : resolvesTo doc.institution V p)
    (hsig : doc.metadata.signature = ⟨p.keyId, hashDocument fileBuffer, salt⟩) :
    (VerificationService.verifyDocument
      (some { doc with institution := rotateMany master doc.institution rotations })
      findUserByEmail findRevocation fileBuffer).checks.cryptographic = true := by
  have hres' := resolvesTo_rotateMany master rotations hres
  have hresolve := resolveInstKey_eq hres'
  simp only [VerificationService.verifyDocument, hkv, jsOrOne_some hV, hresolve, hsig,
    KeyManagementService.verifyDocumentPss, pssVerify, beq_self_eq_true, Bool.and_self]

/-- Witness for C1: a version-1 document, two subsequent rotations, the
signature check still passes. -/
theorem rotation_preserves_prior_signatures_witness :
    (VerificationService.verifyDocument
      (some { id := 1
              type := []
              institutionId := 1
              userId := 2
              status := .ACTIVE
              issuedAt := 0
              metadata := { signature := ⟨5, .sha256 [1, 2], 0⟩
                            keyVersion := some 1
                            issuerEmail := none }
              institution := rotateMany []
                { id := 1
                  name := []
                  status := .ACTIVE
                  rootPublicKey := ⟨5⟩
                  rootPrivateKey := []
                  keyVersion := 1
                  keyRotationHistory := [{ version := 1
                                           publicKey := ⟨5⟩
                                           encryptedPrivateKey := []
                                           createdAt := 0
                                           revokedAt := none }] }
                [(6, [3], 10), (7, [4], 20)] })
      (fun _ => none) (fun _ => none) [1, 2]).checks.cryptographic = true := by
  exact rotation_preserves_prior_signatures []
    { id := 1
      type := []
      institutionId := 1
      userId := 2
      status := .ACTIVE
      issuedAt := 0
      metadata := { signature := ⟨5, .sha256 [1, 2], 0⟩
                    keyVersion := some 1
                    issuerEmail := none }
      institution := { id := 1
                       name := []
                       status := .ACTIVE
                       rootPublicKey := ⟨5⟩
                       rootPrivateKey := []
                       keyVersion := 1
                       keyRotationHistory := [{ version := 1
                                                publicKey := ⟨5⟩
                                                encryptedPrivateKey := []
                                                createdAt := 0
                                                revokedAt := none }] } }
    1 ⟨5⟩ [(6, [3], 10), (7, [4], 20)] (fun _ => none) (fun _ => none) [1, 2] 0
    rfl (by decide)
    ⟨by decide, ⟨⟨1, ⟨5⟩, [], 0, none⟩, rfl, rfl⟩, fun _ => rfl⟩ rfl

/-- Claim C2 (refuting evaluation): a document whose `metadata.keyVersion` (5)
resolves neither to the institution's current key version (2) nor to any
rotation-history entry (versions 1 and 2) is still reported `valid = true`
whenever its signature verifies under the institution's current public key:
lines 50-58 of part_007 push the key-version-not-found error but fall back to
the current `rootPublicKey` and carry on, so verification fails open instead
of failing closed — the result even carries `valid = true` alongside the
explicit key-version-not-found error. -/
theorem key_version_not_found_fails_open :
    (VerificationService.verifyDocument
      (some { id := 1
              type := []
              institutionId := 1
              userId := 2
              status := .ACTIVE
              issuedAt := 100
              metadata := { signature := ⟨7, .sha256 [9, 9], 3⟩
                            keyVersion := some 5
                            issuerEmail := none }
              institution := { id := 1
                               name := []
                               status := .ACTIVE
                               rootPublicKey := ⟨7⟩
                               rootPrivateKey := []
                               keyVersion := 2
                               keyRotationHistory :=
                                 [{ version := 1
                                    publicKey := ⟨5⟩
                                    encryptedPrivateKey := []
                                    createdAt := 0
                                    revokedAt := none },
                                  { version := 2
                                    publicKey := ⟨7⟩
                                    encryptedPrivateKey := []
                                    createdAt := 50
                                    revokedAt := none }] } })
      (fun _ => none) (fun _ => none) [9, 9]).valid = true ∧
    (VerificationService.verifyDocument
      (some { id := 1
              type := []
              institutionId := 1
              userId := 2
              status := .ACTIVE
              issuedAt := 100
              metadata := { signature := ⟨7, .sha256 [9, 9], 3⟩
                            keyVersion := some 5
                            issuerEmail := none }
              institution := { id := 1
                               name := []
                               status := .ACTIVE
                               rootPublicKey := ⟨7⟩
                               rootPrivateKey := []
                               keyVersion := 2
                               keyRotationHistory :=
                                 [{ version := 1
                                    publicKey := ⟨5⟩
                                    encryptedPrivateKey := []
                                    createdAt := 0
                                    revokedAt := none },
                                  { version := 2
                                    publicKey := ⟨7⟩
                                    encryptedPrivateKey := []
                                    createdAt := 50
                                    revokedAt := none }] } })
      (fun _ => none) (fun _ => none) [9, 9]).errors = [.keyVersionNotFound 5] ∧
    (5 : Nat) ≠ 2 ∧
    ([{ version := 1
        publicKey := ⟨5⟩
        encryptedPrivateKey := []
        createdAt := 0
        revokedAt := none },
      { version := 2
        publicKey := ⟨7⟩
        encryptedPrivateKey := []
        createdAt := 50
        revokedAt := none }] : List KeyHistoryEntry).find?
      (fun k => k.version == 5) = none := by
  refine ⟨rfl, rfl, by decide, rfl⟩

/-- Claim C3 (refuting evaluation): the revoke route performs the status
update and the ledger insert as two separate awaited writes with no
transaction (documents.ts lines 541-555), so when the `document.update`
commits and the subsequent `revocation.create` throws, the call fails (500)
yet the document is left with status REVOKED and no revocation record — the
partial state the claim rules out for a failed call. -/
theorem revoke_partial_write_on_ledger_failure :
    (revokeRoute { documents := [{ id := 1, institutionId := 10, status := .ACTIVE }]
                   revocations := [] }
      1 ['f', 'r', 'a', 'u', 'd']
      { userId := 1, email := [], role := .ADMIN, institutionId := 10 }
      100 999 .ok .fail).1 = .serverError ∧
    ((revokeRoute { documents := [{ id := 1, institutionId := 10, status := .ACTIVE }]
                    revocations := [] }
      1 ['f', 'r', 'a', 'u', 'd']
      { userId := 1, email := [], role := .ADMIN, institutionId := 10 }
      100 999 .ok .fail).2.findDocument 1 =
        some { id := 1, institutionId := 10, status := .REVOKED }) ∧
    (revokeRoute { documents := [{ id := 1, institutionId := 10, status := .ACTIVE }]
                   revocations := [] }
      1 ['f', 'r', 'a', 'u', 'd']
      { userId := 1, email := [], role := .ADMIN, institutionId := 10 }
      100 999 .ok .fail).2.revocations = [] := by
  refine ⟨by decide, by decide, by decide⟩

theorem verifyPublicRoute_revoked_branch {doc : DocumentV1}
    {findRevocation : Nat → Option Revocation} {readFile : Nat → Option (List Nat)}
    (hrev : doc.status = DocStatus.REVOKED ∨ (findRevocation doc.id).isSome = true) :
    verifyPublicRoute (some doc) findRevocation readFile = .ok
      { valid := false
        status := .REVOKED
        revokedAt := (findRevocation doc.id).map Revocation.revokedAt
        revokedBy := some (match findRevocation doc.id with
          | some r => jsOrStr r.revokedBy unknownStr
          | none => unknownStr)
        reason := some (match findRevocation doc.id with
          | some r => jsOrStr r.reason noReasonStr
          | none => noReasonStr)
        checks := ⟨false, false, false⟩
        document := ⟨doc.type, doc.issuedAt, redactEmail doc.user.email⟩
        institution := ⟨doc.institution.name, none⟩ } := by
  simp only [verifyPublicRoute]
  rw [if_pos hrev]

theorem verifyPublicRoute_active_branch {doc : DocumentV1}
    {findRevocation : Nat → Option Revocation} {readFile : Nat → Option (List Nat)}
    (hact : doc.status = DocStatus.ACTIVE) (hnorev : findRevocation doc.id = none) :
    verifyPublicRoute (some doc) findRevocation readFile = .ok
      { valid := (match readFile doc.metadata.filePath with
          | none => false
          | some fileBuffer =>
            KeyManagementService.verifyDocumentV1 fileBuffer doc.metadata.signature
              doc.institution.rootPublicKey doc.metadata.hash) &&
          (doc.institution.status == InstStatus.ACTIVE) && true
        status := doc.status
        revokedAt := none
        revokedBy := none
        reason := none
        checks := ⟨(match readFile doc.metadata.filePath with
          | none => false
          | some fileBuffer =>
            KeyManagementService.verifyDocumentV1 fileBuffer doc.metadata.signature
              doc.institution.rootPublicKey doc.metadata.hash),
          doc.institution.status == InstStatus.ACTIVE, true⟩
        document := ⟨doc.type, doc.issuedAt, redactEmail doc.user.email⟩
        institution := ⟨doc.institution.name, some doc.institution.status⟩ } := by
  simp only [verifyPublicRoute]
  rw [if_neg (by rw [hact, hnorev]; simp), if_neg (by rw [hact]; decide)]

/-- Claim C4: when a document's status is REVOKED or a revocation-ledger
record exists for it (even with the status field not updated), the public
verification short-circuits to `valid = false` with status REVOKED surfaced
explicitly, carrying the revocation timestamp, actor and reason whenever the
record provides them — and this verdict is distinguishable from the
tampered-but-never-revoked case, which reports `valid = false` with status
ACTIVE and `signatureValid = false`. -/
theorem revoked_verdict_surfaced_and_distinct
    (doc : DocumentV1) (findRevocation : Nat → Option Revocation)
    (readFile : Nat → Option (List Nat)) (origBytes suppliedBytes : List Nat) :
    (doc.status = DocStatus.REVOKED ∨ (findRevocation doc.id).isSome = true →
      ∃ v, verifyPublicRoute (some doc) findRevocation readFile = .ok v ∧
        v.valid = false ∧ v.status = DocStatus.REVOKED ∧
        ∀ r, findRevocation doc.id = some r →
          v.revokedAt = some r.revokedAt ∧
          (r.revokedBy ≠ [] → v.revokedBy = some r.revokedBy) ∧
          (r.reason ≠ [] → v.reason = some r.reason)) ∧
    (doc.status = DocStatus.ACTIVE → findRevocation doc.id = none →
      readFile doc.metadata.filePath = some suppliedBytes →
      doc.metadata.hash = Digest.sha256 origBytes → suppliedBytes ≠ origBytes →
      ∃ v, verifyPublicRoute (some doc) findRevocation readFile = .ok v ∧
        v.valid = false ∧ v.status = DocStatus.ACTIVE ∧
        v.checks.signatureValid = false ∧ v.checks.notRevoked = true) := by
  constructor
  · intro hrev
    refine ⟨_, verifyPublicRoute_revoked_branch hrev, rfl, rfl, ?_⟩
    intro r hr
    refine ⟨?_, ?_, ?_⟩
    · show (findRevocation doc.id).map Revocation.revokedAt = some r.revokedAt
      rw [hr]
      rfl
    · intro hby
      show some (match findRevocation doc.id with
        | some r => jsOrStr r.revokedBy unknownStr
        | none => unknownStr) = some r.revokedBy
      rw [hr]
      show some (jsOrStr r.revokedBy unknownStr) = some r.revokedBy
      cases hby' : r.revokedBy with
      | nil => exact absurd hby' hby
      | cons c cs => simp [jsOrStr]
    · intro hrs
      show some (match findRevocation doc.id with
        | some r => jsOrStr r.reason noReasonStr
        | none => noReasonStr) = some r.reason
      rw [hr]
      show some (jsOrStr r.reason noReasonStr) = some r.reason
      cases hrs' : r.reason with
      | nil => exact absurd hrs' hrs
      | cons c cs => simp [jsOrStr]
  · intro hact hnorev hfile hhash hne
    have hsigval : (match readFile doc.metadata.filePath with
        | none => false
        | some fileBuffer =>
          KeyManagementService.verifyDocumentV1 fileBuffer doc.metadata.signature
            doc.institution.rootPublicKey doc.metadata.hash) = false := by
      rw [hfile]
      show KeyManagementService.verifyDocumentV1 suppliedBytes doc.metadata.signature
        doc.institution.rootPublicKey doc.metadata.hash = false
      unfold KeyManagementService.verifyDocumentV1
      rw [if_pos]
      rw [hhash]
      simp [hashDocument, hne]
    refine ⟨_, verifyPublicRoute_active_branch hact hnorev, ?_, hact, ?_, rfl⟩
    · show ((match readFile doc.metadata.filePath with
        | none => false
        | some fileBuffer =>
          KeyManagementService.verifyDocumentV1 fileBuffer doc.metadata.signature
            doc.institution.rootPublicKey doc.metadata.hash) &&
        (doc.institution.status == InstStatus.ACTIVE) && true) = false
      rw [hsigval]
      rfl
    · exact hsigval

/-- Witness for C4: both scenarios at concrete inputs — a revoked document
with a populated ledger record, and an ACTIVE tampered document. -/
theorem revoked_verdict_surfaced_and_distinct_witness :
    (∃ v, verifyPublicRoute
      (some { id := 1
              type := []
              institutionId := 1
              userId := 2
              status := .ACTIVE
              issuedAt := 0
              metadata := { hash := .sha256 [1], signature := ⟨5, .sha256 [1]⟩, filePath := 0 }
              institution := { id := 1
                               name := []
                               status := .ACTIVE
                               rootPublicKey := ⟨5⟩
                               rootPrivateKey := []
                               keyVersion := 1
                               keyRotationHistory := [] }
              user := { id := 2, email := ['a', '@', 'b'] } })
      (fun _ => some { id := 9
                       documentId := 1
                       institutionId := 1
                       reason := ['b', 'a', 'd']
                       revokedBy := ['x']
                       revokedAt := 7 })
      (fun _ => some [1]) = .ok v ∧
      v.valid = false ∧ v.status = DocStatus.REVOKED ∧
      v.revokedAt = some 7 ∧ v.revokedBy = some ['x'] ∧ v.reason = some ['b', 'a', 'd']) ∧
    (∃ v, verifyPublicRoute
      (some { id := 1
              type := []
              institutionId := 1
              userId := 2
              status := .ACTIVE
              issuedAt := 0
              metadata := { hash := .sha256 [1], signature := ⟨5, .sha256 [1]⟩, filePath := 0 }
              institution := { id := 1
                               name := []
                               status := .ACTIVE
                               rootPublicKey := ⟨5⟩
                               rootPrivateKey := []
                               keyVersion := 1
                               keyRotationHistory := [] }
              user := { id := 2, email := ['a', '@', 'b'] } })
      (fun _ => none) (fun _ => some [2]) = .ok v ∧
      v.valid = false ∧ v.status = DocStatus.ACTIVE ∧
      v.checks.signatureValid = false ∧ v.checks.notRevoked = true) := by
  constructor
  · obtain ⟨v, hv, h1, h2, h3⟩ :=
      (revoked_verdict_surfaced_and_distinct
        { id := 1
          type := []
          institutionId := 1
          userId := 2
          status := .ACTIVE
          issuedAt := 0
          metadata := { hash := .sha256 [1], signature := ⟨5, .sha256 [1]⟩, filePath := 0 }
          institution := { id := 1
                           name := []
                           status := .ACTIVE
                           rootPublicKey := ⟨5⟩
                           rootPrivateKey := []
                           keyVersion := 1
                           keyRotationHistory := [] }
          user := { id := 2, email := ['a', '@', 'b'] } }
        (fun _ => some { id := 9
                         documentId := 1
                         institutionId := 1
                         reason := ['b', 'a', 'd']
                         revokedBy := ['x']
                         revokedAt := 7 })
        (fun _ => some [1]) [1] [1]).1 (by decide)
    obtain ⟨h4, h5, h6⟩ := h3 _ rfl
    exact ⟨v, hv, h1, h2, h4, h5 (by decide), h6 (by decide)⟩
  · obtain ⟨v, hv, h1, h2, h3, h4⟩ :=
      (revoked_verdict_surfaced_and_distinct
        { id := 1
          type := []
          institutionId := 1
          userId := 2
          status := .ACTIVE
          issuedAt := 0
          metadata := { hash := .sha256 [1], signature := ⟨5, .sha256 [1]⟩, filePath := 0 }
          institution := { id := 1
                           name := []
                           status := .ACTIVE
                           rootPublicKey := ⟨5⟩
                           rootPrivateKey := []
                           keyVersion := 1
                           keyRotationHistory := [] }
          user := { id := 2, email := ['a', '@', 'b'] } }
        (fun _ => none) (fun _ => some [2]) [1] [2]).2 rfl rfl rfl rfl (by decide)
    exact ⟨v, hv, h1, h2, h3, h4⟩

/-- Claim C5: any supplied bytes that differ from the originally signed bytes
make verification report an invalid signature — in the hash-compare variant
the recomputed SHA-256 differs from `metadata.hash` and the call returns
`false` for every signature and key, i.e. before any signature verification is
performed; in the PSS variant a signature bound to the original digest never
verifies against the digest of the altered bytes. -/
theorem tampered_bytes_fail_signature_check
    (origBytes suppliedBytes : List Nat) (hne : suppliedBytes ≠ origBytes) :
    hashDocument suppliedBytes ≠ Digest.sha256 origBytes ∧
    (∀ (sig : RsaSha256Signature) (pub : PublicKey),
      KeyManagementService.verifyDocumentV1 suppliedBytes sig pub
        (Digest.sha256 origBytes) = false) ∧
    (∀ (sig : PssSignature) (pub : PublicKey), sig.digest = Digest.sha256 origBytes →
      KeyManagementService.verifyDocumentPss suppliedBytes sig pub = false) := by
  have hhash : hashDocument suppliedBytes ≠ Digest.sha256 origBytes := by
    simp [hashDocument, hne]
  refine ⟨hhash, ?_, ?_⟩
  · intro sig pub
    unfold KeyManagementService.verifyDocumentV1
    rw [if_pos hhash]
  · intro sig pub hsig
    simp [KeyManagementService.verifyDocumentPss, pssVerify, hashDocument, hsig,
      Ne.symm hne]

/-- Witness for C5: one flipped byte, both variants reject. -/
theorem tampered_bytes_fail_signature_check_witness :
    hashDocument [2] ≠ Digest.sha256 [1] ∧
    KeyManagementService.verifyDocumentV1 [2] ⟨5, .sha256 [1]⟩ ⟨5⟩ (.sha256 [1]) = false ∧
    KeyManagementService.verifyDocumentPss [2] ⟨5, .sha256 [1], 0⟩ ⟨5⟩ = false := by
  obtain ⟨h1, h2, h3⟩ := tampered_bytes_fail_signature_check [1] [2] (by decide)
  exact ⟨h1, h2 ⟨5, .sha256 [1]⟩ ⟨5⟩, h3 ⟨5, .sha256 [1], 0⟩ ⟨5⟩ rfl⟩

/-- Claim C6 (refuting evaluation): a document issued exactly at the instant
the issuer's authorization was revoked (`issuedAt = issuer.revokedAt = 100`)
lies outside the claimed half-open window `[whitelistedAt, revokedAt)`, yet
the verifier's authority check passes: part_007 line 85 rejects only when
`issuer.revokedAt < issuedAt` (strict), so the boundary instant is accepted
and the overall verdict is even `valid = true`. -/
theorem issuer_window_boundary_counterexample :
    (VerificationService.verifyDocument
      (some { id := 1
              type := []
              institutionId := 1
              userId := 2
              status := .ACTIVE
              issuedAt := 100
              metadata := { signature := ⟨5, .sha256 [1], 0⟩
                            keyVersion := some 1
                            issuerEmail := some ['i'] }
              institution := { id := 1
                               name := []
                               status := .ACTIVE
                               rootPublicKey := ⟨5⟩
                               rootPrivateKey := []
                               keyVersion := 1
                               keyRotationHistory :=
                                 [{ version := 1
                                    publicKey := ⟨5⟩
                                    encryptedPrivateKey := []
                                    createdAt := 0
                                    revokedAt := none }] } })
      (fun e => if e = ['i'] then
        some { id := 3
               email := ['i']
               institutionId := 1
               role := .ISSUER
               whitelistedAt := some 0
               revokedAt := some 100 }
        else none)
      (fun _ => none) [1]).checks.authority = true ∧
    (VerificationService.verifyDocument
      (some { id := 1
              type := []
              institutionId := 1
              userId := 2
              status := .ACTIVE
              issuedAt := 100
              metadata := { signature := ⟨5, .sha256 [1], 0⟩
                            keyVersion := some 1
                            issuerEmail := some ['i'] }
              institution := { id := 1
                               name := []
                               status := .ACTIVE
                               rootPublicKey := ⟨5⟩
                               rootPrivateKey := []
                               keyVersion := 1
                               keyRotationHistory :=
                                 [{ version := 1
                                    publicKey := ⟨5⟩
                                    encryptedPrivateKey := []
                                    createdAt := 0
                                    revokedAt := none }] } })
      (fun e => if e = ['i'] then
        some { id := 3
               email := ['i']
               institutionId := 1
               role := .ISSUER
               whitelistedAt := some 0
               revokedAt := some 100 }
        else none)
      (fun _ => none) [1]).valid = true := by
  exact ⟨by decide, by decide⟩

/-- Claim C6 (amended): the window the verifier actually enforces for a found
issuer of the issuing institution is closed on the right,
`[whitelistedAt, revokedAt]`: the authority check fails whenever the issuance
timestamp is strictly before a set `whitelistedAt` or strictly after a set
`revokedAt` — issuance exactly at the `revokedAt` instant still passes — even
when the cryptographic signature check succeeds (the authority check is
computed independently of it). -/
theorem issuer_window_enforced_strictly_after
    (doc : DocumentV2) (issuer : UserRec)
    (findUserByEmail : List Char → Option UserRec)
    (findRevocation : Nat → Option Revocation)
    (fileBuffer : List Nat) (em : List Char)
    (hem : doc.metadata.issuerEmail = some em)
    (hlook : findUserByEmail em = some issuer)
    (hviol : (∃ w, issuer.whitelistedAt = some w ∧ doc.issuedAt < w) ∨
             (∃ r, issuer.revokedAt = some r ∧ r < doc.issuedAt)) :
    (VerificationService.verifyDocument (some doc) findUserByEmail findRevocation
      fileBuffer).checks.authority = false := by
  simp only [VerificationService.verifyDocument, hem, hlook]
  by_cases hinst : issuer.institutionId ≠ doc.institutionId
  · rw [if_pos hinst]
  · rw [if_neg hinst]
    by_cases hwl : issuer.whitelistedAt.getD 0 > doc.issuedAt
    · rw [if_pos hwl]
    · rw [if_neg hwl]
      rcases hviol with ⟨w, hw, hlt⟩ | ⟨r, hr, hlt⟩
      · exfalso
        apply hwl
        rw [hw]
        simpa using hlt
      · rw [hr]
        rw [if_pos (by simpa using hlt)]

/-- Witness for C6 (amended): issuance strictly after the issuer's revocation
instant fails the authority check. -/
theorem issuer_window_enforced_strictly_after_witness :
    (VerificationService.verifyDocument
      (some { id := 1
              type := []
              institutionId := 1
              userId := 2
              status := .ACTIVE
              issuedAt := 100
              metadata := { signature := ⟨5, .sha256 [1], 0⟩
                            keyVersion := some 1
                            issuerEmail := some ['i'] }
              institution := { id := 1
                               name := []
                               status := .ACTIVE
                               rootPublicKey := ⟨5⟩
                               rootPrivateKey := []
                               keyVersion := 1
                               keyRotationHistory := [] } })
      (fun e => if e = ['i'] then
        some { id := 3
               email := ['i']
               institutionId := 1
               role := .ISSUER
               whitelistedAt := some 0
               revokedAt := some 50 }
        else none)
      (fun _ => none) [1]).checks.authority = false := by
  exact issuer_window_enforced_strictly_after
    { id := 1
      type := []
      institutionId := 1
      userId := 2
      status := .ACTIVE
      issuedAt := 100
      metadata := { signature := ⟨5, .sha256 [1], 0⟩
                    keyVersion := some 1
                    issuerEmail := some ['i'] }
      institution := { id := 1
                       name := []
                       status := .ACTIVE
                       rootPublicKey := ⟨5⟩
                       rootPrivateKey := []
                       keyVersion := 1
                       keyRotationHistory := [] } }
    { id := 3
      email := ['i']
      institutionId := 1
      role := .ISSUER
      whitelistedAt := some 0
      revokedAt := some 50 }
    (fun e => if e = ['i'] then
      some { id := 3
             email := ['i']
             institutionId := 1
             role := .ISSUER
             whitelistedAt := some 0
             revokedAt := some 50 }
      else none)
    (fun _ => none) [1] ['i'] rfl (by decide)
    (Or.inr ⟨50, rfl, by decide⟩)

theorem gcmTagBytes_lt (key ivVal : Nat) (ct : List Nat) :
    ∀ b ∈ gcmTagBytes key ivVal ct, b < 256 :=
  natToBytesAux_lt 16 _

/-- The vault round trip, as a shared lemma: decrypting the envelope produced
by `encryptPrivateKey` under the same master key returns the plaintext. -/
theorem decryptPrivateKey_encryptPrivateKey
    (master : List Char) (privateKey iv : List Nat)
    (hpt : ∀ b ∈ privateKey, b < 256) (hiv : ∀ b ∈ iv, b < 256) :
    KeyManagementService.decryptPrivateKey master
      (KeyManagementService.encryptPrivateKey master iv privateKey) = some privateKey := by
  have hct : ∀ b ∈ xorStream (scryptSync master scryptSaltLiteral 32) (bytesVal iv) 0
      privateKey, b < 256 :=
    xorStream_lt hpt _ _ 0
  have htag := gcmTagBytes_lt (scryptSync master scryptSaltLiteral 32) (bytesVal iv)
    (xorStream (scryptSync master scryptSaltLiteral 32) (bytesVal iv) 0 privateKey)
  have hsplit : splitChar ':'
      (hexEncode iv ++ ':' ::
        (hexEncode (gcmTagBytes (scryptSync master scryptSaltLiteral 32) (bytesVal iv)
          (xorStream (scryptSync master scryptSaltLiteral 32) (bytesVal iv) 0 privateKey)) ++
          ':' :: hexEncode (xorStream (scryptSync master scryptSaltLiteral 32)
            (bytesVal iv) 0 privateKey))) =
      [hexEncode iv,
       hexEncode (gcmTagBytes (scryptSync master scryptSaltLiteral 32) (bytesVal iv)
         (xorStream (scryptSync master scryptSaltLiteral 32) (bytesVal iv) 0 privateKey)),
       hexEncode (xorStream (scryptSync master scryptSaltLiteral 32) (bytesVal iv) 0
         privateKey)] := by
    rw [splitChar_append_sep (hexEncode_ne_colon hiv),
      splitChar_append_sep (hexEncode_ne_colon htag),
      splitChar_of_no_sep (hexEncode_ne_colon hct)]
  show KeyManagementService.decryptPrivateKey master
      (hexEncode iv ++ ':' ::
        (hexEncode (gcmTagBytes (scryptSync master scryptSaltLiteral 32) (bytesVal iv)
          (xorStream (scryptSync master scryptSaltLiteral 32) (bytesVal iv) 0 privateKey)) ++
          ':' :: hexEncode (xorStream (scryptSync master scryptSaltLiteral 32)
            (bytesVal iv) 0 privateKey))) = some privateKey
  simp only [KeyManagementService.decryptPrivateKey, hsplit, hexDecode_hexEncode hiv,
    hexDecode_hexEncode htag, hexDecode_hexEncode hct]
  simp [xorStream_xorStream]

/-- Claim C7: private-key encryption at rest round-trips — decrypting the
envelope produced by `encryptPrivateKey` under the same master key returns the
original PEM byte string; the envelope really is the three colon-delimited hex
fields `iv:authTag:ciphertext`; and the authentication tag is verified on
decryption, with any envelope carrying a tag other than the one recomputed for
its ciphertext rejected as `none` (fail closed) rather than decrypted to
plaintext. -/
theorem private_key_encryption_round_trip
    (master : List Char) (privateKey iv : List Nat)
    (hpt : ∀ b ∈ privateKey, b < 256) (hiv : ∀ b ∈ iv, b < 256) :
    KeyManagementService.decryptPrivateKey master
      (KeyManagementService.encryptPrivateKey master iv privateKey) = some privateKey ∧
    splitChar ':' (KeyManagementService.encryptPrivateKey master iv privateKey) =
      [hexEncode iv,
       hexEncode (gcmTagBytes (scryptSync master scryptSaltLiteral 32) (bytesVal iv)
         (xorStream (scryptSync master scryptSaltLiteral 32) (bytesVal iv) 0 privateKey)),
       hexEncode (xorStream (scryptSync master scryptSaltLiteral 32) (bytesVal iv) 0
         privateKey)] ∧
    (∀ forgedTag : List Nat, (∀ b ∈ forgedTag, b < 256) →
      forgedTag ≠ gcmTagBytes (scryptSync master scryptSaltLiteral 32) (bytesVal iv)
        (xorStream (scryptSync master scryptSaltLiteral 32) (bytesVal iv) 0 privateKey) →
      KeyManagementService.decryptPrivateKey master
        (hexEncode iv ++ ':' ::
          (hexEncode forgedTag ++ ':' ::
            hexEncode (xorStream (scryptSync master scryptSaltLiteral 32) (bytesVal iv) 0
              privateKey))) = none) := by
  have hct : ∀ b ∈ xorStream (scryptSync master scryptSaltLiteral 32) (bytesVal iv) 0
      privateKey, b < 256 :=
    xorStream_lt hpt _ _ 0
  have htag := gcmTagBytes_lt (scryptSync master scryptSaltLiteral 32) (bytesVal iv)
    (xorStream (scryptSync master scryptSaltLiteral 32) (bytesVal iv) 0 privateKey)
  have hsplit : splitChar ':'
      (hexEncode iv ++ ':' ::
        (hexEncode (gcmTagBytes (scryptSync master scryptSaltLiteral 32) (bytesVal iv)
          (xorStream (scryptSync master scryptSaltLiteral 32) (bytesVal iv) 0 privateKey)) ++
          ':' :: hexEncode (xorStream (scryptSync master scryptSaltLiteral 32)
            (bytesVal iv) 0 privateKey))) =
      [hexEncode iv,
       hexEncode (gcmTagBytes (scryptSync master scryptSaltLiteral 32) (bytesVal iv)
         (xorStream (scryptSync master scryptSaltLiteral 32) (bytesVal iv) 0 privateKey)),
       hexEncode (xorStream (scryptSync master scryptSaltLiteral 32) (bytesVal iv) 0
         privateKey)] := by
    rw [splitChar_append_sep (hexEncode_ne_colon hiv),
      splitChar_append_sep (hexEncode_ne_colon htag),
      splitChar_of_no_sep (hexEncode_ne_colon hct)]
  have henc : KeyManagementService.encryptPrivateKey master iv privateKey =
      hexEncode iv ++ ':' ::
        (hexEncode (gcmTagBytes (scryptSync master scryptSaltLiteral 32) (bytesVal iv)
          (xorStream (scryptSync master scryptSaltLiteral 32) (bytesVal iv) 0 privateKey)) ++
          ':' :: hexEncode (xorStream (scryptSync master scryptSaltLiteral 32)
            (bytesVal iv) 0 privateKey)) := by
    rfl
  refine ⟨decryptPrivateKey_encryptPrivateKey master privateKey iv hpt hiv,
    by rw [henc]; exact hsplit, ?_⟩
  · intro forgedTag hfb hfne
    have hsplit' : splitChar ':'
        (hexEncode iv ++ ':' ::
          (hexEncode forgedTag ++ ':' :: hexEncode
            (xorStream (scryptSync master scryptSaltLiteral 32) (bytesVal iv) 0
              privateKey))) =
        [hexEncode iv, hexEncode forgedTag,
         hexEncode (xorStream (scryptSync master scryptSaltLiteral 32) (bytesVal iv) 0
           privateKey)] := by
      rw [splitChar_append_sep (hexEncode_ne_colon hiv),
        splitChar_append_sep (hexEncode_ne_colon hfb),
        splitChar_of_no_sep (hexEncode_ne_colon hct)]
    simp only [KeyManagementService.decryptPrivateKey, hsplit', hexDecode_hexEncode hiv,
      hexDecode_hexEncode hfb, hexDecode_hexEncode hct]
    simp [hfne]

/-- Witness for C7: a concrete key string round-trips through the vault, and a
forged tag is rejected. -/
theorem private_key_encryption_round_trip_witness :
    KeyManagementService.decryptPrivateKey ['m', 'k']
      (KeyManagementService.encryptPrivateKey ['m', 'k'] [1, 2] [10, 20]) =
      some [10, 20] := by
  exact (private_key_encryption_round_trip ['m', 'k'] [10, 20] [1, 2]
    (by decide) (by decide)).1

/-- Claim C8: the PSS `signDocument` returns a hash that is a deterministic
function of the file bytes — two runs over the same bytes yield the same
digest — while the signature is not deterministic: two runs with the same key
and bytes but the distinct random PSS salts the two invocations draw produce
different signature values, both of which nevertheless verify against the
signer's public key (so signatures are checked by re-verification, not byte
equality). -/
theorem signing_hash_deterministic_signature_randomized
    (master : List Char) (fileBuffer : List Nat) (keyId : Nat) (iv : List Nat)
    (hiv : ∀ b ∈ iv, b < 256) (kv s1 s2 : Nat) (hs : s1 ≠ s2) :
    ∃ sig1 sig2 : PssSignature,
      KeyManagementService.signDocumentPss master fileBuffer
        (KeyManagementService.encryptPrivateKey master iv (privateKeyPem keyId)) kv s1 =
        some (sig1, hashDocument fileBuffer) ∧
      KeyManagementService.signDocumentPss master fileBuffer
        (KeyManagementService.encryptPrivateKey master iv (privateKeyPem keyId)) kv s2 =
        some (sig2, hashDocument fileBuffer) ∧
      sig1 ≠ sig2 ∧
      pssVerify ⟨keyId⟩ (hashDocument fileBuffer) sig1 = true ∧
      pssVerify ⟨keyId⟩ (hashDocument fileBuffer) sig2 = true := by
  have hpem : ∀ b ∈ privateKeyPem keyId, b < 256 := by
    intro b hb
    exact Nat.digits_lt_base (by omega) hb
  have hdec := decryptPrivateKey_encryptPrivateKey master (privateKeyPem keyId) iv hpem hiv
  have hid : pemKeyId (privateKeyPem keyId) = keyId := Nat.ofDigits_digits 256 keyId
  refine ⟨pssSign (privateKeyPem keyId) (hashDocument fileBuffer) s1,
          pssSign (privateKeyPem keyId) (hashDocument fileBuffer) s2, ?_, ?_, ?_, ?_, ?_⟩
  · simp [KeyManagementService.signDocumentPss, hdec]
  · simp [KeyManagementService.signDocumentPss, hdec]
  · simp [pssSign, hs]
  · simp [pssSign, pssVerify, hid]
  · simp [pssSign, pssVerify, hid]

/-- Witness for C8: two concrete signing runs, same bytes and key, salts 0 and
1 — equal hashes, different signatures, both verify. -/
theorem signing_hash_deterministic_signature_randomized_witness :
    ∃ sig1 sig2 : PssSignature,
      KeyManagementService.signDocumentPss ['m'] [1, 2]
        (KeyManagementService.encryptPrivateKey ['m'] [3] (privateKeyPem 5)) 1 0 =
        some (sig1, hashDocument [1, 2]) ∧
      KeyManagementService.signDocumentPss ['m'] [1, 2]
        (KeyManagementService.encryptPrivateKey ['m'] [3] (privateKeyPem 5)) 1 1 =
        some (sig2, hashDocument [1, 2]) ∧
      sig1 ≠ sig2 ∧
      pssVerify ⟨5⟩ (hashDocument [1, 2]) sig1 = true ∧
      pssVerify ⟨5⟩ (hashDocument [1, 2]) sig2 = true := by
  exact signing_hash_deterministic_signature_randomized ['m'] [1, 2] 5 [3]
    (by decide) 1 0 1 (by decide)

theorem find?_map_update (docId : Nat) (s : DocStatus) (l : List DocRow) :
    (l.map (fun d => if d.id == docId then { d with status := s } else d)).find?
      (fun d => d.id == docId) =
    (l.find? (fun d => d.id == docId)).map (fun d => { d with status := s }) := by
  induction l with
  | nil => rfl
  | cons d tl ih =>
    cases hd : (d.id == docId) with
    | true =>
      simp only [List.map_cons, List.find?, hd, if_true, Option.map_some]
      rfl
    | false =>
      simp only [List.map_cons, List.find?, hd, Bool.false_eq_true, if_false]
      exact ih

/-- A revoke call on a document whose stored status is already REVOKED never
succeeds and leaves the store untouched, whatever the reason, caller and write
outcomes. -/
theorem revokeRoute_noop_of_revoked {st : Store} {docId : Nat} {doc : DocRow}
    (reason : List Char) (user : SessionUser) (revId now : Nat)
    (u c : WriteOutcome)
    (hdoc : st.findDocument docId = some doc)
    (hst : doc.status = DocStatus.REVOKED) :
    (revokeRoute st docId reason user revId now u c).1.isSuccess = false ∧
    (revokeRoute st docId reason user revId now u c).2 = st := by
  unfold revokeRoute
  by_cases hr : reason.isEmpty = true
  · rw [if_pos hr]
    exact ⟨rfl, rfl⟩
  · rw [if_neg hr]
    simp only [hdoc]
    by_cases hrole : user.role = UserRole.ISSUER ∧ doc.institutionId ≠ user.institutionId
    · rw [if_pos hrole]
      exact ⟨rfl, rfl⟩
    · rw [if_neg hrole, if_pos hst]
      exact ⟨rfl, rfl⟩

/-- Claim C9: revocation is idempotent-reject — from a state where the
document is not yet revoked, the first revoke call (both writes committing)
succeeds, flips the document to REVOKED and appends exactly one ledger record;
and every subsequent revoke call on the same document id, with any reason
(including a different one), caller and write outcomes, returns an error and
changes nothing: the status stays REVOKED and no second record is appended. -/
theorem revoke_idempotent_reject
    (st : Store) (docId : Nat) (reason : List Char) (user : SessionUser)
    (revId now : Nat) (doc : DocRow)
    (hreason : reason.isEmpty = false)
    (hdoc : st.findDocument docId = some doc)
    (hnotrev : doc.status ≠ DocStatus.REVOKED)
    (hrole : ¬(user.role = UserRole.ISSUER ∧ doc.institutionId ≠ user.institutionId)) :
    (revokeRoute st docId reason user revId now .ok .ok).1 =
      .success reason (revokedByStr user) ∧
    (revokeRoute st docId reason user revId now .ok .ok).2.findDocument docId =
      some { doc with status := .REVOKED } ∧
    (revokeRoute st docId reason user revId now .ok .ok).2.revocations =
      st.revocations ++
        [{ id := revId
           documentId := doc.id
           institutionId := doc.institutionId
           reason := reason
           revokedBy := revokedByStr user
           revokedAt := now }] ∧
    ∀ (reason2 : List Char) (user2 : SessionUser) (revId2 now2 : Nat)
      (u2 c2 : WriteOutcome),
      (revokeRoute (revokeRoute st docId reason user revId now .ok .ok).2 docId reason2
        user2 revId2 now2 u2 c2).1.isSuccess = false ∧
      (revokeRoute (revokeRoute st docId reason user revId now .ok .ok).2 docId reason2
        user2 revId2 now2 u2 c2).2 =
        (revokeRoute st docId reason user revId now .ok .ok).2 := by
  have hroute : revokeRoute st docId reason user revId now .ok .ok =
      (.success reason (revokedByStr user),
       { documents := st.documents.map
           (fun d => if d.id == docId then { d with status := DocStatus.REVOKED } else d)
         revocations := st.revocations ++
           [{ id := revId
              documentId := doc.id
              institutionId := doc.institutionId
              reason := reason
              revokedBy := revokedByStr user
              revokedAt := now }] }) := by
    unfold revokeRoute
    rw [if_neg (by rw [hreason]; exact Bool.false_ne_true)]
    simp only [hdoc]
    rw [if_neg hrole, if_neg hnotrev]
    rfl
  have hfind2 : (revokeRoute st docId reason user revId now .ok .ok).2.findDocument docId =
      some { doc with status := DocStatus.REVOKED } := by
    rw [hroute]
    show (st.documents.map
      (fun d => if d.id == docId then { d with status := DocStatus.REVOKED } else d)).find?
        (fun d => d.id == docId) = some { doc with status := DocStatus.REVOKED }
    rw [find?_map_update]
    rw [show st.documents.find? (fun d => d.id == docId) = some doc from hdoc]
    rfl
  refine ⟨by rw [hroute], hfind2, by rw [hroute], ?_⟩
  intro reason2 user2 revId2 now2 u2 c2
  exact revokeRoute_noop_of_revoked reason2 user2 revId2 now2 u2 c2 hfind2 rfl

/-- Witness for C9: a concrete first revoke succeeds, a concrete second
revoke with a different reason is rejected and leaves the state unchanged. -/
theorem revoke_idempotent_reject_witness :
    (revokeRoute { documents := [{ id := 1, institutionId := 10, status := .ACTIVE }]
                   revocations := [] }
      1 ['b', 'a', 'd']
      { userId := 4, email := ['e'], role := .ADMIN, institutionId := 10 }
      100 999 .ok .ok).1 =
      .success ['b', 'a', 'd']
        (revokedByStr { userId := 4, email := ['e'], role := .ADMIN, institutionId := 10 }) ∧
    (revokeRoute { documents := [{ id := 1, institutionId := 10, status := .ACTIVE }]
                   revocations := [] }
      1 ['b', 'a', 'd']
      { userId := 4, email := ['e'], role := .ADMIN, institutionId := 10 }
      100 999 .ok .ok).2.findDocument 1 =
      some { id := 1, institutionId := 10, status := .REVOKED } ∧
    (revokeRoute (revokeRoute { documents := [{ id := 1, institutionId := 10,
                                                status := .ACTIVE }]
                                revocations := [] }
      1 ['b', 'a', 'd']
      { userId := 4, email := ['e'], role := .ADMIN, institutionId := 10 }
      100 999 .ok .ok).2 1 ['w', 'o', 'r', 's', 'e']
      { userId := 4, email := ['e'], role := .ADMIN, institutionId := 10 }
      101 1000 .ok .ok).1.isSuccess = false := by
  obtain ⟨h1, h2, _, h4⟩ := revoke_idempotent_reject
    { documents := [{ id := 1, institutionId := 10, status := .ACTIVE }]
      revocations := [] }
    1 ['b', 'a', 'd']
    { userId := 4, email := ['e'], role := .ADMIN, institutionId := 10 }
    100 999 { id := 1, institutionId := 10, status := .ACTIVE }
    rfl rfl (by decide) (by decide)
  exact ⟨h1, h2, (h4 ['w', 'o', 'r', 's', 'e']
    { userId := 4, email := ['e'], role := .ADMIN, institutionId := 10 }
    101 1000 .ok .ok).1⟩

/-- The recipient-email field carried by a verdict body, when one is present. -/
def responseRecipientEmail : PublicVerifyResponse → Option (List Char)
  | .ok v => some v.document.recipientEmail
  | _ => none

theorem star_mem_redactEmail (email : List Char) : '*' ∈ redactEmail email := by
  simp only [redactEmail]
  split
  · simp
  · simp

/-- Claim C10: every verdict body the public verification endpoint returns for
a found document — in the revoked, superseded and active-check branches alike
— carries the recipient email in the partially masked form produced by
`redactEmail`; and for any address whose text does not already contain the
mask character `*`, the masked form differs from the full address, so the full
email is never revealed. -/
theorem public_verification_redacts_recipient_email
    (doc : DocumentV1) (findRevocation : Nat → Option Revocation)
    (readFile : Nat → Option (List Nat)) :
    responseRecipientEmail (verifyPublicRoute (some doc) findRevocation readFile) =
      some (redactEmail doc.user.email) ∧
    ('*' ∉ doc.user.email → redactEmail doc.user.email ≠ doc.user.email) := by
  constructor
  · by_cases h1 : doc.status = DocStatus.REVOKED ∨ (findRevocation doc.id).isSome = true
    · rw [verifyPublicRoute_revoked_branch h1]
      rfl
    · by_cases h2 : doc.status = DocStatus.SUPERSEDED
      · simp only [verifyPublicRoute]
        rw [if_neg h1, if_pos h2]
        rfl
      · simp only [verifyPublicRoute]
        rw [if_neg h1, if_neg h2]
        rfl
  · intro hstar heq
    exact hstar (heq ▸ star_mem_redactEmail doc.user.email)

/-- Witness for C10: a concrete active document; the response email is the
masked form and differs from the full address. -/
theorem public_verification_redacts_recipient_email_witness :
    responseRecipientEmail (verifyPublicRoute
      (some { id := 1
              type := []
              institutionId := 1
              userId := 2
              status := .ACTIVE
              issuedAt := 0
              metadata := { hash := .sha256 [1], signature := ⟨5, .sha256 [1]⟩, filePath := 0 }
              institution := { id := 1
                               name := []
                               status := .ACTIVE
                               rootPublicKey := ⟨5⟩
                               rootPrivateKey := []
                               keyVersion := 1
                               keyRotationHistory := [] }
              user := { id := 2, email := ['a', 'l', 'i', 'c', 'e', '@', 'x'] } })
      (fun _ => none) (fun _ => some [1])) =
      some (redactEmail ['a', 'l', 'i', 'c', 'e', '@', 'x']) ∧
    redactEmail ['a', 'l', 'i', 'c', 'e', '@', 'x'] ≠ ['a', 'l', 'i', 'c', 'e', '@', 'x'] := by
  obtain ⟨h1, h2⟩ := public_verification_redacts_recipient_email
    { id := 1
      type := []
      institutionId := 1
      userId := 2
      status := .ACTIVE
      issuedAt := 0
      metadata := { hash := .sha256 [1], signature := ⟨5, .sha256 [1]⟩, filePath := 0 }
      institution := { id := 1
                       name := []
                       status := .ACTIVE
                       rootPublicKey := ⟨5⟩
                       rootPrivateKey := []
                       keyVersion := 1
                       keyRotationHistory := [] }
      user := { id := 2, email := ['a', 'l', 'i', 'c', 'e', '@', 'x'] } }
    (fun _ => none) (fun _ => some [1])
  exact ⟨h1, h2 (by decide)⟩
